import Mathlib

/-!
Verification of the resilient upstream-fetch subsystem of the lider-api
repository (Go). The Go sources are shallowly embedded: pure data
transformations become Lean functions over an explicit JSON value type;
network effects (http.Client.Do, io.ReadAll) and regex matching become
oracle environments supplied as function arguments, so every theorem
quantifies over all possible upstream behaviours. Machine floats
(float64 prices) are modelled as rationals; Go zero values are explicit
defaults. Function and field names follow the Go source.
-/

namespace Lider

/-- JSON values as decoded by Go encoding/json into interface\x7b\x7d:
nil, bool, float64 (modelled as a rational), string, []interface\x7b\x7d,
map[string]interface\x7b\x7d (modelled as an association list; Go maps
have unique keys). -/
inductive Jval where
  | null
  | bool (b : Bool)
  | num (q : ℚ)
  | str (s : String)
  | arr (xs : List Jval)
  | obj (fields : List (String × Jval))

/-- Lookup of a key in a decoded JSON object (Go map indexing). -/
def jLookup (fields : List (String × Jval)) (k : String) : Option Jval :=
  (fields.find? (fun pr => pr.1 == k)).map (fun pr => pr.2)

/-- Go type assertion v.(string). -/
def jStr : Jval → Option String
  | .str s => some s
  | _ => none

/-- Go type assertion data[k].(string): present and a string. -/
def getStr (o : List (String × Jval)) (k : String) : Option String :=
  match jLookup o k with
  | some (.str s) => some s
  | _ => none

/-- Go type assertion data[k].(float64). -/
def getNum (o : List (String × Jval)) (k : String) : Option ℚ :=
  match jLookup o k with
  | some (.num q) => some q
  | _ => none

/-- Go type assertion data[k].(bool). -/
def getBool (o : List (String × Jval)) (k : String) : Option Bool :=
  match jLookup o k with
  | some (.bool b) => some b
  | _ => none

/-- Go type assertion data[k].(map[string]interface\x7b\x7d). -/
def getObj (o : List (String × Jval)) (k : String) : Option (List (String × Jval)) :=
  match jLookup o k with
  | some (.obj fields) => some fields
  | _ => none

/-- Go type assertion data[k].([]interface\x7b\x7d). -/
def getArr (o : List (String × Jval)) (k : String) : Option (List Jval) :=
  match jLookup o k with
  | some (.arr xs) => some xs
  | _ => none

/-- Go images[i].(string): element at index i when it is a string. -/
def strAt (xs : List Jval) (i : Nat) : Option String :=
  match xs.get? i with
  | some (.str s) => some s
  | _ => none

/-- Go strings.Contains: needle occurs as a contiguous substring of hay. -/
def strContains (hay needle : String) : Bool :=
  decide (needle.data <:+: hay.data)

/-- Go int(f) truncation of a float64 toward zero. -/
def truncToInt (q : ℚ) : Int :=
  q.num.tdiv q.den

/-- Product (scraper.go / part_002): one search-result record. -/
structure PriceInfo where
  BasePriceReference : ℚ
  BasePriceSales : ℚ

/-- Images (scraper.go / part_002): product image URLs. -/
structure Images where
  DefaultImage : String
  MediumImage : String

/-- Product (scraper.go / part_002): canonical product summary. -/
structure Product where
  ID : String
  Brand : String
  Description : String
  DisplayName : String
  Price : PriceInfo
  Images : Images

/-- DetailPrice (part_002): detailed price block of a ProductDetail. -/
structure DetailPrice where
  Current : ℚ
  Original : ℚ
  Discount : ℚ
  Currency : String
  PerUnit : String

/-- Spec (part_002): one product specification entry. -/
structure Spec where
  Name : String
  Value : String

/-- ProductDetail (part_002): canonical product detail record. -/
structure ProductDetail where
  SKU : String
  Name : String
  Brand : String
  Description : String
  Price : DetailPrice
  Images : List String
  Specifications : List Spec
  Availability : Bool
  Stock : Int
  Rating : ℚ
  ReviewCount : Int
  Category : String
  URL : String

/-- Response (part_002): envelope of the upstream search/promotions/category
JSON API. -/
structure Response where
  Products : List Product
  NbHits : Int
  Page : Int
  NbPages : Int

/-- Go zero value of PriceInfo. -/
def PriceInfo.zero : PriceInfo := ⟨0, 0⟩

/-- Go zero value of Images. -/
def Images.zero : Images := ⟨"", ""⟩

/-- Go zero value of Product. -/
def Product.zero : Product := ⟨"", "", "", "", PriceInfo.zero, Images.zero⟩

/-- Go zero value of DetailPrice. -/
def DetailPrice.zero : DetailPrice := ⟨0, 0, 0, "", ""⟩

/-- Go zero value of ProductDetail. -/
def ProductDetail.zero : ProductDetail :=
  ⟨"", "", "", "", DetailPrice.zero, [], [], false, 0, 0, 0, "", ""⟩

/-- Digit predicate over characters (ASCII 0-9). -/
def isDigitChar (c : Char) : Bool :=
  48 ≤ c.toNat && c.toNat ≤ 57

/-- Numeric value of a digit character. -/
def digitVal (c : Char) : Nat := c.toNat - 48

/-- Value of a digit string read left to right. -/
def natOfDigits (ds : List Char) : Nat :=
  ds.foldl (fun n c => n * 10 + digitVal c) 0

/-- Value of integer digits followed by fraction digits, as a rational. -/
def decValue (intPart fracPart : List Char) : ℚ :=
  (natOfDigits intPart : ℚ) + (natOfDigits fracPart : ℚ) / ((10 : ℚ) ^ fracPart.length)

/-- ASCII codes used by the numeric scanners. -/
def dotCode : Nat := 46

/-- Minus sign code. -/
def minusCode : Nat := 45

/-- Plus sign code. -/
def plusCode : Nat := 43

/-- Consume an optional sign; true means negative. -/
def scanSign (cs : List Char) : Bool × List Char :=
  match cs with
  | c :: rest =>
    if c.toNat == minusCode then (true, rest)
    else if c.toNat == plusCode then (false, rest)
    else (false, cs)
  | [] => (false, [])

/-- Leading-prefix decimal scan, as fmt.Sscanf with verb %f reads a number
from the front of a string (exponents are not modelled; the price strings
this program scans never carry one). Returns none when no digits are
found, in which case the Go scan leaves the target variable at zero. -/
def scanDecimal (cs : List Char) : Option ℚ :=
  let sg := scanSign cs
  let intPart := sg.2.takeWhile isDigitChar
  let rest := sg.2.dropWhile isDigitChar
  match rest with
  | c :: rest2 =>
    if c.toNat == dotCode then
      let fracPart := rest2.takeWhile isDigitChar
      if intPart.isEmpty && fracPart.isEmpty then none
      else some ((if sg.1 then -1 else 1) * decValue intPart fracPart)
    else if intPart.isEmpty then none
    else some ((if sg.1 then -1 else 1) * decValue intPart [])
  | [] =>
    if intPart.isEmpty then none
    else some ((if sg.1 then -1 else 1) * decValue intPart [])

/-- Whole-string decimal parse, as strconv.ParseFloat: trailing characters
make the parse fail (exponents again not modelled). -/
def parseFloatStrict (cs0 : List Char) : Option ℚ :=
  let sg := scanSign cs0
  let intPart := sg.2.takeWhile isDigitChar
  let rest := sg.2.dropWhile isDigitChar
  match rest with
  | c :: rest2 =>
    if c.toNat == dotCode then
      let fracPart := rest2.takeWhile isDigitChar
      let rest3 := rest2.dropWhile isDigitChar
      if rest3.isEmpty && !(intPart.isEmpty && fracPart.isEmpty) then
        some ((if sg.1 then -1 else 1) * decValue intPart fracPart)
      else none
    else none
  | [] =>
    if intPart.isEmpty then none
    else some ((if sg.1 then -1 else 1) * decValue intPart [])

/-- strings.ReplaceAll(s, ".", ""): drop every dot. -/
def removeDots (cs : List Char) : List Char :=
  cs.filter (fun c => c.toNat != 46)

/-- strings.ReplaceAll(s, ",", "."): every comma becomes a dot. -/
def commaToDot (cs : List Char) : List Char :=
  cs.map (fun c => if c.toNat == 44 then Char.ofNat 46 else c)

/-- strings.ReplaceAll(s, "$", ""): drop every dollar sign. -/
def removeDollar (cs : List Char) : List Char :=
  cs.filter (fun c => c.toNat != 36)

/-- ASCII whitespace, as trimmed by strings.TrimSpace (the price and name
strings handled here are ASCII). -/
def isSpaceChar (c : Char) : Bool :=
  c.toNat == 32 || c.toNat == 9 || c.toNat == 10 || c.toNat == 13

/-- strings.TrimSpace over characters. -/
def trimChars (cs : List Char) : List Char :=
  ((cs.dropWhile isSpaceChar).reverse.dropWhile isSpaceChar).reverse

/-- strings.TrimSpace on a string. -/
def trimString (s : String) : String :=
  (trimChars s.data).asString

/-- parsePrice (part_002): strip thousands dots, turn the decimal comma
into a dot, strip currency symbol, trim, then scan with Sscanf %f; a
failed scan leaves the price at zero. -/
def parsePrice (priceStr : String) : ℚ :=
  let clean := trimChars (removeDollar (commaToDot (removeDots priceStr.data)))
  match scanDecimal clean with
  | some q => q
  | none => 0

/-- One product-item block found by the summary pattern regexes
(extractProductsFromHTMLPatterns, part_000): the oracle result of the
three inner capture groups, none when the inner regex did not match. -/
structure PatternBlock where
  idMatch : Option String
  titleMatch : Option String
  priceMatch : Option String

/-- Oracle result of the three detail pattern regexes over a product page
(extractProductDetailFromHTMLPatterns, part_000). -/
structure DetailPatterns where
  skuMatch : Option String
  h1Match : Option String
  priceMatch : Option String

/-- An HTTP response body together with the oracle results of every parse
the program may apply to it: json is json.Unmarshal into interface\x7b\x7d
(none when the bytes are not valid JSON), initialState is the regex-located
window.__INITIAL_STATE__ blob after Unmarshal (none when the regex does not
match or that blob fails to parse), and the pattern fields are the oracle
results of the HTML pattern regexes. The raw text is kept for substring
checks (anti-bot markers, error messages). -/
structure Body where
  text : String
  json : Option Jval
  initialState : Option Jval
  patternBlocks : List PatternBlock
  detailPatterns : DetailPatterns

/-- A body with no content at all. -/
def Body.empty : Body :=
  ⟨"", none, none, [], ⟨none, none, none⟩⟩

/-- Outcome of one attempt of the advanced transport as observed by
makeRequest (part_000): http.NewRequest failed, client.Do or io.ReadAll
failed (both set lastErr and continue; a redirect into queue-it.net makes
CheckRedirect return an error, which surfaces here as a doErr), or a
response with its status and body. -/
inductive DoResult where
  | newReqErr (e : String)
  | doErr (e : String)
  | resp (status : Nat) (body : Body)

/-- How makeRequest reacts to one attempt outcome: abort the whole call
(only for a NewRequest failure), record the error and retry, or succeed. -/
inductive StepOut where
  | abort (e : String)
  | retry (e : String)
  | ok (status : Nat) (body : Body)

/-- Per-attempt classification inside the retry loop of makeRequest
(part_000 lines 100-158): NewRequest failure returns at once; Do and
ReadAll failures retry; status 429 or 503 retries; a body containing a
queue-it marker retries regardless of status; anything else succeeds. -/
def classifyAttempt : DoResult → StepOut
  | .newReqErr e => .abort ("failed to create request: " ++ e)
  | .doErr e => .retry e
  | .resp status body =>
    if status == 429 || status == 503 then
      .retry ("rate limited or service unavailable (status " ++ toString status ++ ")")
    else if strContains body.text "queue-it.net" || strContains body.text "Queue-it" then
      .retry "blocked by anti-bot protection"
    else .ok status body

/-- Observable events of one makeRequest call: acquiring the rate-limiter
permit, sleeping a backoff delay (seconds), and starting attempt idx. -/
inductive ReqEvent where
  | permit
  | sleep (secs : Nat)
  | attempt (idx : Nat)
deriving DecidableEq, Repr

/-- retryDelays of NewAdvancedScraper (part_000 line 83), in seconds. -/
def retryDelays : List Nat := [1, 3, 7, 15]

/-- Events of loop iteration number attempt: the backoff sleep taken at the
top of every iteration but the first, then the attempt itself. -/
def iterEvents (attempt : Nat) : List ReqEvent :=
  (if attempt == 0 then [] else [ReqEvent.sleep (retryDelays.getD (attempt - 1) 0)])
    ++ [ReqEvent.attempt attempt]

/-- Result and event trace of one makeRequest call. -/
structure ReqOutcome where
  result : Except String (Nat × Body)
  trace : List ReqEvent

/-- The retry loop of makeRequest (part_000 lines 95-159): remaining
iterations, current attempt index, and the last recorded error. When the
budget runs out the failure carries the last error. The Go nil error
renders as the marker string used by fmt for a nil %w operand. -/
def makeRequestLoop (env : Nat → DoResult) : Nat → Nat → Option String → ReqOutcome
  | 0, _, lastErr =>
    ⟨.error ("max retries exceeded, last error: " ++ lastErr.getD "%!w(<nil>)"), []⟩
  | remaining + 1, attempt, _lastErr =>
    match classifyAttempt (env attempt) with
    | .abort e => ⟨.error e, iterEvents attempt⟩
    | .ok status body => ⟨.ok (status, body), iterEvents attempt⟩
    | .retry e =>
      let rest := makeRequestLoop env remaining (attempt + 1) (some e)
      ⟨rest.result, iterEvents attempt ++ rest.trace⟩

/-- makeRequest (part_000 lines 89-162): block on one rate-limiter permit,
then run up to len(retryDelays)+1 = 5 attempts. The env oracle gives the
network outcome of each attempt. -/
def makeRequest (env : Nat → DoResult) : ReqOutcome :=
  let rest := makeRequestLoop env (retryDelays.length + 1) 0 none
  ⟨rest.result, ReqEvent.permit :: rest.trace⟩

/-- Number of attempts recorded in a trace. -/
def countAttempts (tr : List ReqEvent) : Nat :=
  tr.countP (fun e => match e with | .attempt _ => true | _ => false)

/-- Attempts made by a finished call. -/
def ReqOutcome.attemptsMade (o : ReqOutcome) : Nat := countAttempts o.trace

/-- Canonical event run of k attempts starting at index a. -/
def traceFrom (a : Nat) : Nat → List ReqEvent
  | 0 => []
  | k + 1 => iterEvents a ++ traceFrom (a + 1) k

/-- Canonical event run of the first k attempts. -/
def fullTrace (k : Nat) : List ReqEvent := traceFrom 0 k

theorem countAttempts_append (t1 t2 : List ReqEvent) :
    countAttempts (t1 ++ t2) = countAttempts t1 + countAttempts t2 := by
  simp [countAttempts]

theorem countAttempts_iterEvents (a : Nat) : countAttempts (iterEvents a) = 1 := by
  cases a with
  | zero => rfl
  | succ n => rfl

theorem countAttempts_traceFrom (a k : Nat) : countAttempts (traceFrom a k) = k := by
  induction k generalizing a with
  | zero => rfl
  | succ k ih =>
    simp only [traceFrom, countAttempts_append, countAttempts_iterEvents, ih]
    omega

theorem count_permit_iterEvents (a : Nat) : (iterEvents a).count ReqEvent.permit = 0 := by
  cases a with
  | zero => rfl
  | succ n => rfl

theorem count_permit_traceFrom (a k : Nat) : (traceFrom a k).count ReqEvent.permit = 0 := by
  induction k generalizing a with
  | zero => rfl
  | succ k ih =>
    simp [traceFrom, List.count_append, count_permit_iterEvents, ih]

theorem makeRequestLoop_abort_step (env : Nat → DoResult) (r a : Nat)
    (le : Option String) (e : String) (h : classifyAttempt (env a) = StepOut.abort e) :
    makeRequestLoop env (r + 1) a le = ⟨Except.error e, iterEvents a⟩ := by
  rw [makeRequestLoop, h]

theorem makeRequestLoop_ok_step (env : Nat → DoResult) (r a : Nat)
    (le : Option String) (status : Nat) (body : Body)
    (h : classifyAttempt (env a) = StepOut.ok status body) :
    makeRequestLoop env (r + 1) a le = ⟨Except.ok (status, body), iterEvents a⟩ := by
  rw [makeRequestLoop, h]

theorem makeRequestLoop_retry_step (env : Nat → DoResult) (r a : Nat)
    (le : Option String) (e : String) (h : classifyAttempt (env a) = StepOut.retry e) :
    makeRequestLoop env (r + 1) a le =
      ⟨(makeRequestLoop env r (a + 1) (some e)).result,
        iterEvents a ++ (makeRequestLoop env r (a + 1) (some e)).trace⟩ := by
  rw [makeRequestLoop, h]

theorem makeRequestLoop_shape (env : Nat → DoResult) :
    ∀ (r a : Nat) (le : Option String), ∃ k, k ≤ r ∧ (0 < r → 0 < k) ∧
      countAttempts (makeRequestLoop env r a le).trace = k ∧
      (makeRequestLoop env r a le).trace = traceFrom a k := by
  intro r
  induction r with
  | zero =>
    intro a le
    exact ⟨0, Nat.le_refl 0, fun h => absurd h (by omega), rfl, rfl⟩
  | succ r ih =>
    intro a le
    cases h : classifyAttempt (env a) with
    | abort e =>
      refine ⟨1, by omega, fun _ => by omega, ?_, ?_⟩
      · rw [makeRequestLoop_abort_step env r a le e h]
        exact countAttempts_iterEvents a
      · rw [makeRequestLoop_abort_step env r a le e h]
        simp [traceFrom]
    | ok status body =>
      refine ⟨1, by omega, fun _ => by omega, ?_, ?_⟩
      · rw [makeRequestLoop_ok_step env r a le status body h]
        exact countAttempts_iterEvents a
      · rw [makeRequestLoop_ok_step env r a le status body h]
        simp [traceFrom]
    | retry e =>
      obtain ⟨k, hk, _, hcnt, htr⟩ := ih (a + 1) (some e)
      refine ⟨k + 1, by omega, fun _ => by omega, ?_, ?_⟩
      · rw [makeRequestLoop_retry_step env r a le e h]
        show countAttempts (iterEvents a ++ _) = k + 1
        rw [countAttempts_append, countAttempts_iterEvents, hcnt]
        omega
      · rw [makeRequestLoop_retry_step env r a le e h]
        show iterEvents a ++ _ = _
        rw [htr, traceFrom]

theorem makeRequestLoop_exhaust (env : Nat → DoResult) :
    ∀ (r a : Nat) (le : Option String), 0 < r →
      (∀ j, a ≤ j → j < a + r → ∃ e, classifyAttempt (env j) = StepOut.retry e) →
      ∃ e, classifyAttempt (env (a + r - 1)) = StepOut.retry e ∧
        (makeRequestLoop env r a le).result =
          Except.error ("max retries exceeded, last error: " ++ e) ∧
        (makeRequestLoop env r a le).trace = traceFrom a r := by
  intro r
  induction r with
  | zero => intro a le h; omega
  | succ r ih =>
    intro a le _ hall
    obtain ⟨e, he⟩ := hall a (Nat.le_refl a) (by omega)
    cases r with
    | zero =>
      refine ⟨e, by simpa using he, ?_, ?_⟩
      · rw [makeRequestLoop_retry_step env 0 a le e he]
        rfl
      · rw [makeRequestLoop_retry_step env 0 a le e he]
        show iterEvents a ++ _ = _
        simp [traceFrom, makeRequestLoop]
    | succ r2 =>
      obtain ⟨e2, he2, hres, htr⟩ :=
        ih (a + 1) (some e) (by omega) (fun j h1 h2 => hall j (by omega) (by omega))
      have hidx : a + 1 + (r2 + 1) - 1 = a + (r2 + 1 + 1) - 1 := by omega
      rw [hidx] at he2
      refine ⟨e2, he2, ?_, ?_⟩
      · rw [makeRequestLoop_retry_step env (r2 + 1) a le e he]
        exact hres
      · rw [makeRequestLoop_retry_step env (r2 + 1) a le e he]
        show iterEvents a ++ _ = _
        rw [htr]
        simp [traceFrom]

theorem makeRequestLoop_ok_at (env : Nat → DoResult) :
    ∀ (r a : Nat) (le : Option String) (i status : Nat) (body : Body),
      a ≤ i → i < a + r →
      (∀ j, a ≤ j → j < i → ∃ e, classifyAttempt (env j) = StepOut.retry e) →
      classifyAttempt (env i) = StepOut.ok status body →
      (makeRequestLoop env r a le).result = Except.ok (status, body) ∧
      (makeRequestLoop env r a le).trace = traceFrom a (i - a + 1) := by
  intro r
  induction r with
  | zero => intro a le i status body h1 h2; omega
  | succ r ih =>
    intro a le i status body h1 h2 hbefore hok
    rcases Nat.eq_or_lt_of_le h1 with heq | hlt
    · subst heq
      rw [makeRequestLoop_ok_step env r a le status body hok]
      refine ⟨rfl, ?_⟩
      show iterEvents a = traceFrom a (a - a + 1)
      have : a - a + 1 = 1 := by omega
      rw [this]
      simp [traceFrom]
    · obtain ⟨e, he⟩ := hbefore a (Nat.le_refl a) hlt
      obtain ⟨hres, htr⟩ :=
        ih (a + 1) (some e) i status body (by omega) (by omega)
          (fun j hj1 hj2 => hbefore j (by omega) hj2) hok
      rw [makeRequestLoop_retry_step env r a le e he]
      refine ⟨hres, ?_⟩
      show iterEvents a ++ _ = _
      have hia : i - a + 1 = (i - (a + 1) + 1) + 1 := by omega
      rw [hia, htr]
      simp [traceFrom]

theorem countAttempts_permit_cons (t : List ReqEvent) :
    countAttempts (ReqEvent.permit :: t) = countAttempts t := by
  simp [countAttempts]

/-- C4: every makeRequest call (part_000 lines 89-162) acquires exactly one
rate-governor permit, as the very first event and never again on retries;
makes at most 5 attempts (one initial plus four retries); its trace is the
canonical permit-then-attempts run in which the sleep before attempt i+1
is retryDelays[i], i.e. the backoff delays between consecutive attempts
are 1s, 3s, 7s, 15s; and when every attempt in the budget fails in the
retryable way, the call returns a permanent failure whose message carries
the last attempt error. -/
theorem c4_transport_budget (env : Nat → DoResult) :
    (makeRequest env).trace.head? = some ReqEvent.permit ∧
    (makeRequest env).trace.count ReqEvent.permit = 1 ∧
    (makeRequest env).attemptsMade ≤ 5 ∧
    (makeRequest env).trace = ReqEvent.permit :: fullTrace (makeRequest env).attemptsMade ∧
    ((∀ i, i < 5 → ∃ e, classifyAttempt (env i) = StepOut.retry e) →
      ∃ e, classifyAttempt (env 4) = StepOut.retry e ∧
        (makeRequest env).result =
          Except.error ("max retries exceeded, last error: " ++ e) ∧
        (makeRequest env).attemptsMade = 5) := by
  have hlen : retryDelays.length = 4 := rfl
  obtain ⟨k, hk5, _, hcnt, htr⟩ := makeRequestLoop_shape env (retryDelays.length + 1) 0 none
  have hmk : (makeRequest env).trace =
      ReqEvent.permit :: (makeRequestLoop env (retryDelays.length + 1) 0 none).trace := rfl
  have hattempts : (makeRequest env).attemptsMade = k := by
    rw [ReqOutcome.attemptsMade, hmk, countAttempts_permit_cons, hcnt]
  refine ⟨by rw [hmk]; rfl, ?_, ?_, ?_, ?_⟩
  · rw [hmk, List.count_cons, htr, count_permit_traceFrom]
    simp
  · rw [hattempts]; exact hk5
  · rw [hmk, htr, hattempts, fullTrace]
  · intro hall
    obtain ⟨e, he, hres, _⟩ :=
      makeRequestLoop_exhaust env (retryDelays.length + 1) 0 none (by omega)
        (fun j h1 h2 => hall j (by omega))
    refine ⟨e, he, hres, ?_⟩
    have h2 := makeRequestLoop_exhaust env (retryDelays.length + 1) 0 none (by omega)
      (fun j h1 h2 => hall j (by omega))
    obtain ⟨e2, _, _, htr2⟩ := h2
    rw [ReqOutcome.attemptsMade, hmk, countAttempts_permit_cons, htr2,
      countAttempts_traceFrom]
    rfl

/-- C4 witness: a call in which every attempt is rate limited with status
429 makes exactly 5 attempts and fails permanently, carrying the last
rate-limit error. -/
theorem c4_transport_budget_witness :
    ∃ e, classifyAttempt ((fun _ => DoResult.resp 429 Body.empty) 4) = StepOut.retry e ∧
      (makeRequest (fun _ => DoResult.resp 429 Body.empty)).result =
        Except.error ("max retries exceeded, last error: " ++ e) ∧
      (makeRequest (fun _ => DoResult.resp 429 Body.empty)).attemptsMade = 5 :=
  (c4_transport_budget (fun _ => DoResult.resp 429 Body.empty)).2.2.2.2
    (fun _ _ => ⟨"rate limited or service unavailable (status 429)", rfl⟩)

/-- C5: per-attempt response classification in makeRequest (part_000 lines
145-158). A body containing a queue-it marker is classified as a retryable
failure regardless of the status code; status 429 or 503 is likewise a
retryable failure; an attempt is classified as a success only when the
response carries no marker and neither of those statuses; and when the
first success happens at attempt i, makeRequest returns it immediately,
having made exactly i+1 attempts. -/
theorem c5_response_classification :
    (∀ (status : Nat) (body : Body),
        (strContains body.text "queue-it.net" || strContains body.text "Queue-it") = true →
        ∃ e, classifyAttempt (DoResult.resp status body) = StepOut.retry e) ∧
    (∀ (status : Nat) (body : Body), status = 429 ∨ status = 503 →
        ∃ e, classifyAttempt (DoResult.resp status body) = StepOut.retry e) ∧
    (∀ (d : DoResult) (status : Nat) (body : Body),
        classifyAttempt d = StepOut.ok status body →
        d = DoResult.resp status body ∧
        strContains body.text "queue-it.net" = false ∧
        strContains body.text "Queue-it" = false ∧
        status ≠ 429 ∧ status ≠ 503) ∧
    (∀ (env : Nat → DoResult) (i status : Nat) (body : Body), i < 5 →
        (∀ j, j < i → ∃ e, classifyAttempt (env j) = StepOut.retry e) →
        classifyAttempt (env i) = StepOut.ok status body →
        (makeRequest env).result = Except.ok (status, body) ∧
        (makeRequest env).attemptsMade = i + 1) := by
  refine ⟨?_, ?_, ?_, ?_⟩
  · intro status body h
    by_cases h429 : (status == 429 || status == 503) = true
    · exact ⟨"rate limited or service unavailable (status " ++ toString status ++ ")",
        by simp [classifyAttempt, h429]⟩
    · exact ⟨"blocked by anti-bot protection", by simp [classifyAttempt, h429, h]⟩
  · intro status body h
    refine ⟨"rate limited or service unavailable (status " ++ toString status ++ ")", ?_⟩
    rcases h with h | h <;> subst h <;> simp [classifyAttempt]
  · intro d status body h
    cases d with
    | newReqErr e => simp [classifyAttempt] at h
    | doErr e => simp [classifyAttempt] at h
    | resp s b =>
      rw [classifyAttempt] at h
      by_cases h429 : (s == 429 || s == 503) = true
      · simp [h429] at h
      · by_cases hmark : (strContains b.text "queue-it.net" || strContains b.text "Queue-it") = true
        · simp [h429, hmark] at h
        · simp [h429, hmark] at h
          obtain ⟨hs, hb⟩ := h
          subst hs; subst hb
          simp at h429 hmark
          exact ⟨rfl, hmark.1, hmark.2, by simpa using h429.1, by simpa using h429.2⟩
  · intro env i status body hi hbefore hok
    obtain ⟨hres, htr⟩ :=
      makeRequestLoop_ok_at env (retryDelays.length + 1) 0 none i status body
        (Nat.zero_le i) (by simpa [retryDelays] using hi)
        (fun j _ hj => hbefore j hj) hok
    refine ⟨hres, ?_⟩
    rw [ReqOutcome.attemptsMade]
    have hmk : (makeRequest env).trace =
        ReqEvent.permit :: (makeRequestLoop env (retryDelays.length + 1) 0 none).trace := rfl
    rw [hmk, countAttempts_permit_cons, htr, countAttempts_traceFrom]
    omega

/-- C5 witness: first attempt rate limited with status 429, second attempt
a clean 200 response: the call succeeds immediately at the second attempt,
having made exactly 2 attempts. -/
theorem c5_response_classification_witness :
    (makeRequest (fun a => match a with
        | 0 => DoResult.resp 429 Body.empty
        | _ + 1 => DoResult.resp 200 Body.empty)).result =
      Except.ok (200, Body.empty) ∧
    (makeRequest (fun a => match a with
        | 0 => DoResult.resp 429 Body.empty
        | _ + 1 => DoResult.resp 200 Body.empty)).attemptsMade = 2 :=
  c5_response_classification.2.2.2
    (fun a => match a with
      | 0 => DoResult.resp 429 Body.empty
      | _ + 1 => DoResult.resp 200 Body.empty)
    1 200 Body.empty (by omega)
    (fun j hj => by
      interval_cases j
      exact ⟨"rate limited or service unavailable (status 429)", rfl⟩)
    rfl

/-- The client.Do error produced when CheckRedirect rejects a redirect to
the queue-it anti-bot interstitial (part_000 lines 48-57); Go wraps it in
a url.Error whose text embeds the CheckRedirect message. -/
def antiBotRedirectMsg : String :=
  "Get https://www.lider.cl/supermercado/search?query=leche: blocked by anti-bot protection (queue-it)"

/-- A network in which the first attempt is redirected to queue-it (so
client.Do fails with the CheckRedirect error) and every later attempt gets
a clean 200 response. -/
def antiBotEnv : Nat → DoResult
  | 0 => DoResult.doErr antiBotRedirectMsg
  | _ + 1 => DoResult.resp 200 Body.empty

/-- C3 counterexample: after an anti-bot (queue-it) redirect is detected
on the first attempt, makeRequest does NOT abort the attempt sequence: it
makes a second attempt and even returns its success, so the claim that no
further retry attempts are made within the same call is false on the code
(part_000 lines 131-135 treat the redirect error as a retryable lastErr). -/
theorem c3_counterexample :
    antiBotEnv 0 = DoResult.doErr antiBotRedirectMsg ∧
    (makeRequest antiBotEnv).attemptsMade = 2 ∧
    (makeRequest antiBotEnv).result = Except.ok (200, Body.empty) :=
  ⟨rfl, rfl, rfl⟩

/-- C3 amended: a redirect to the queue-it anti-bot host aborts redirect
following for that attempt (client.Do returns the CheckRedirect error),
but makeRequest classifies that error as retryable like any transient
failure: whenever the first attempt fails with a Do error, at least one
further attempt is made within the same call. -/
theorem c3_antibot_redirect_retried (env : Nat → DoResult) (e : String)
    (h : env 0 = DoResult.doErr e) :
    classifyAttempt (env 0) = StepOut.retry e ∧
    2 ≤ (makeRequest env).attemptsMade := by
  have hc : classifyAttempt (env 0) = StepOut.retry e := by rw [h]; rfl
  refine ⟨hc, ?_⟩
  obtain ⟨k, _, hkpos, hcnt, htr⟩ := makeRequestLoop_shape env retryDelays.length 1 (some e)
  have hmk : (makeRequest env).trace =
      ReqEvent.permit :: (makeRequestLoop env (retryDelays.length + 1) 0 none).trace := rfl
  have hloop : (makeRequestLoop env (retryDelays.length + 1) 0 none).trace =
      iterEvents 0 ++ (makeRequestLoop env retryDelays.length 1 (some e)).trace := by
    simp [makeRequestLoop, hc]
  rw [ReqOutcome.attemptsMade, hmk, countAttempts_permit_cons, hloop,
    countAttempts_append, countAttempts_iterEvents, hcnt]
  have : 0 < k := hkpos (by simp [retryDelays])
  omega

/-- C3 amended witness: the concrete anti-bot environment satisfies the
amended statement. -/
theorem c3_antibot_redirect_retried_witness :
    2 ≤ (makeRequest antiBotEnv).attemptsMade :=
  (c3_antibot_redirect_retried antiBotEnv antiBotRedirectMsg rfl).2

/-- mapToProduct (part_000 lines 392-429): map one decoded JSON object
onto a Product; every field is independently optional and defaults to the
Go zero value when missing or of the wrong dynamic type. -/
def mapToProduct (data : List (String × Jval)) : Product :=
  { ID := (getStr data "id").getD ""
    Brand := (getStr data "brand").getD ""
    Description := (getStr data "description").getD ""
    DisplayName := (getStr data "displayName").getD ""
    Price :=
      match getObj data "price" with
      | some priceData =>
        { BasePriceReference := (getNum priceData "BasePriceReference").getD 0
          BasePriceSales := (getNum priceData "BasePriceSales").getD 0 }
      | none => PriceInfo.zero
    Images :=
      match getObj data "images" with
      | some imageData =>
        { DefaultImage := (getStr imageData "defaultImage").getD ""
          MediumImage := (getStr imageData "mediumImage").getD "" }
      | none => Images.zero }

/-- mapToProductDetail (part_000 lines 432-484): map one decoded JSON
object onto a ProductDetail. Currency is set to CLP only inside the price
branch; the Discount field is never assigned and stays at the zero value;
the URL is rebuilt from the SKU. -/
def mapToProductDetail (data : List (String × Jval)) : ProductDetail :=
  { SKU := (getStr data "sku").getD ""
    Name := (getStr data "name").getD ""
    Brand := (getStr data "brand").getD ""
    Description := (getStr data "description").getD ""
    Price :=
      match getObj data "price" with
      | some priceData =>
        { Current := (getNum priceData "current").getD 0
          Original := (getNum priceData "original").getD 0
          Discount := 0
          Currency := "CLP"
          PerUnit := "" }
      | none => DetailPrice.zero
    Images := ((getArr data "images").getD []).filterMap jStr
    Specifications := []
    Availability := (getBool data "availability").getD false
    Stock :=
      match getNum data "stock" with
      | some q => truncToInt q
      | none => 0
    Rating := (getNum data "rating").getD 0
    ReviewCount := 0
    Category := (getStr data "category").getD ""
    URL := "https://www.lider.cl/supermercado/product/sku/" ++ (getStr data "sku").getD "" }

/-- Price assembly of extractProductsFromHTMLPatterns (part_000 lines
510-517): strip dots, turn commas into dots, then strconv.ParseFloat; on
success both price fields get the parsed value, otherwise they stay zero. -/
def patternPriceInfo (priceMatch : Option String) : PriceInfo :=
  match priceMatch with
  | none => PriceInfo.zero
  | some ps =>
    match parseFloatStrict (commaToDot (removeDots ps.data)) with
    | some p => { BasePriceReference := p, BasePriceSales := p }
    | none => PriceInfo.zero

/-- Product assembled from one pattern block (part_000 lines 496-517). -/
def blockToProduct (b : PatternBlock) : Product :=
  { ID := b.idMatch.getD ""
    Brand := ""
    Description := ""
    DisplayName := trimString (b.titleMatch.getD "")
    Price := patternPriceInfo b.priceMatch
    Images := Images.zero }

/-- extractProductsFromHTMLPatterns (part_000 lines 487-526): keep a block
only when both the product id and the trimmed title are non-empty. The
regex scan over the raw HTML is the oracle that produced the blocks. -/
def extractProductsFromHTMLPatterns : List PatternBlock → List Product
  | [] => []
  | b :: bs =>
    let product := blockToProduct b
    if product.ID ≠ "" ∧ product.DisplayName ≠ "" then
      product :: extractProductsFromHTMLPatterns bs
    else
      extractProductsFromHTMLPatterns bs

/-- Price assembly of extractProductDetailFromHTMLPatterns (part_000 lines
543-551): same normalization, and on success Current, Original and the
CLP currency are all set from the single parsed value. -/
def patternDetailPrice (priceMatch : Option String) : DetailPrice :=
  match priceMatch with
  | none => DetailPrice.zero
  | some ps =>
    match parseFloatStrict (commaToDot (removeDots ps.data)) with
    | some p => { Current := p, Original := p, Discount := 0, Currency := "CLP", PerUnit := "" }
    | none => DetailPrice.zero

/-- extractProductDetailFromHTMLPatterns (part_000 lines 529-560): build a
detail from the sku, h1 and price pattern matches; return nil only when
both the SKU and the name are empty, otherwise mark it available. -/
def extractProductDetailFromHTMLPatterns (dp : DetailPatterns) : Option ProductDetail :=
  let sku := dp.skuMatch.getD ""
  let name := trimString (dp.h1Match.getD "")
  if sku = "" ∧ name = "" then none
  else some
    { SKU := sku
      Name := name
      Brand := ""
      Description := ""
      Price := patternDetailPrice dp.priceMatch
      Images := []
      Specifications := []
      Availability := true
      Stock := 0
      Rating := 0
      ReviewCount := 0
      Category := ""
      URL := "" }

/-- Structured tier of extractProductsFromHTML (part_000 lines 341-362):
navigate the embedded initial-state JSON through search.results and keep
only records whose mapped ID is non-empty. -/
def structuredProducts (body : Body) : List Product :=
  match body.initialState with
  | some (.obj data) =>
    match jLookup data "search" with
    | some (.obj searchData) =>
      match jLookup searchData "results" with
      | some (.arr results) =>
        results.foldr
          (fun item acc =>
            match item with
            | .obj productMap =>
              let product := mapToProduct productMap
              if product.ID ≠ "" then product :: acc else acc
            | _ => acc)
          []
      | _ => []
    | _ => []
  | _ => []

/-- extractProductsFromHTML (part_000 lines 338-370): structured extraction
first, HTML pattern extraction when it yields nothing. -/
def extractProductsFromHTML (body : Body) : List Product :=
  let products := structuredProducts body
  if products.isEmpty then extractProductsFromHTMLPatterns body.patternBlocks
  else products

/-- extractProductDetailFromHTML (part_000 lines 373-389): use the embedded
initial-state product object when present, else fall back to patterns. -/
def extractProductDetailFromHTML (body : Body) : Option ProductDetail :=
  match body.initialState with
  | some (.obj data) =>
    match jLookup data "product" with
    | some (.obj productData) => some (mapToProductDetail productData)
    | _ => extractProductDetailFromHTMLPatterns body.detailPatterns
  | _ => extractProductDetailFromHTMLPatterns body.detailPatterns

/-- Price assembly of fetchProductDetailViaScraping (part_002 lines
192-227): Current and Original are set from the regex-extracted strings
when they parse to a positive value, and the discount percent is derived
as (Original - Current) / Original * 100 exactly when both are positive.
The two extractWithRegex results are the oracle inputs; an empty string
means the regex did not match. -/
def discountStep (p2 : DetailPrice) : DetailPrice :=
  if p2.Original > 0 ∧ p2.Current > 0 then
    { p2 with Discount := (p2.Original - p2.Current) / p2.Original * 100 }
  else p2

/-- The detail skeleton of part_002 line 195: only the currency is set. -/
def scrapedBase : DetailPrice :=
  { Current := 0, Original := 0, Discount := 0, Currency := "CLP", PerUnit := "" }

/-- part_002 lines 211-215: set Current when the extracted string parses
to a positive price. -/
def scrapedCurrentStep (priceMatch : String) (d : DetailPrice) : DetailPrice :=
  if priceMatch ≠ "" then
    (if parsePrice priceMatch > 0 then { d with Current := parsePrice priceMatch } else d)
  else d

/-- part_002 lines 218-222: set Original when the extracted string parses
to a positive price. -/
def scrapedOriginalStep (originalPriceMatch : String) (d : DetailPrice) : DetailPrice :=
  if originalPriceMatch ≠ "" then
    (if parsePrice originalPriceMatch > 0 then { d with Original := parsePrice originalPriceMatch } else d)
  else d

/-- The full price assembly: current, then original, then the discount
derivation of part_002 lines 225-227. -/
def scrapedPrice (priceMatch originalPriceMatch : String) : DetailPrice :=
  discountStep (scrapedOriginalStep originalPriceMatch (scrapedCurrentStep priceMatch scrapedBase))

theorem discountStep_Original (p2 : DetailPrice) :
    (discountStep p2).Original = p2.Original := by
  unfold discountStep; split_ifs <;> rfl

theorem discountStep_Current (p2 : DetailPrice) :
    (discountStep p2).Current = p2.Current := by
  unfold discountStep; split_ifs <;> rfl

theorem discountStep_Discount (p2 : DetailPrice) (hd : p2.Discount = 0) :
    ((0 < p2.Original ∧ 0 < p2.Current) →
      (discountStep p2).Discount = (p2.Original - p2.Current) / p2.Original * 100) ∧
    (¬(0 < p2.Original ∧ 0 < p2.Current) → (discountStep p2).Discount = 0) := by
  unfold discountStep
  split_ifs with h
  · exact ⟨fun _ => rfl, fun h2 => absurd h h2⟩
  · exact ⟨fun h2 => absurd h2 h, fun _ => hd⟩

theorem scrapedCurrentStep_Discount (cs : String) (d : DetailPrice) :
    (scrapedCurrentStep cs d).Discount = d.Discount := by
  unfold scrapedCurrentStep; split_ifs <;> rfl

theorem scrapedOriginalStep_Discount (os : String) (d : DetailPrice) :
    (scrapedOriginalStep os d).Discount = d.Discount := by
  unfold scrapedOriginalStep; split_ifs <;> rfl

theorem scrapedPrice_eq_discountStep (cs os : String) :
    ∃ p2, scrapedPrice cs os = discountStep p2 ∧ p2.Discount = 0 := by
  refine ⟨scrapedOriginalStep os (scrapedCurrentStep cs scrapedBase), rfl, ?_⟩
  rw [scrapedOriginalStep_Discount, scrapedCurrentStep_Discount]
  rfl

/-- C7 counterexample: mapToProductDetail (part_000 lines 432-484), the
structured-extraction tier of the advanced detail pipeline, never derives
the discount: with original 2000 and current 1500 it produces discount 0,
not the 25.0 required by the claim, so the claim is false for details
produced by this function. -/
def discountInput : List (String × Jval) :=
  [("sku", Jval.str "4522432"),
   ("price", Jval.obj [("current", Jval.num 1500), ("original", Jval.num 2000)])]

theorem c7_counterexample :
    (mapToProductDetail discountInput).Price.Original = 2000 ∧
    (mapToProductDetail discountInput).Price.Current = 1500 ∧
    (mapToProductDetail discountInput).Price.Discount = 0 ∧
    ((mapToProductDetail discountInput).Price.Original -
        (mapToProductDetail discountInput).Price.Current) /
        (mapToProductDetail discountInput).Price.Original * 100 = 25 ∧
    (mapToProductDetail discountInput).Price.Discount ≠ 25 := by
  have ho : (mapToProductDetail discountInput).Price.Original = 2000 := rfl
  have hc : (mapToProductDetail discountInput).Price.Current = 1500 := rfl
  have hd : (mapToProductDetail discountInput).Price.Discount = 0 := rfl
  refine ⟨ho, hc, hd, ?_, ?_⟩
  · rw [ho, hc]; norm_num
  · rw [hd]; norm_num

/-- C7 amended: the discount derivation holds only in the plain scraping
fetcher fetchProductDetailViaScraping (part_002): there, whenever both
assembled prices are positive the discount equals
(original - current) / original * 100, and otherwise it is zero (so
original = 0 yields discount 0 with no division); details produced by the
advanced structured extraction mapToProductDetail always carry discount 0
whatever the prices are. -/
theorem c7_discount_derivation (cs os : String) :
    ((0 < (scrapedPrice cs os).Original ∧ 0 < (scrapedPrice cs os).Current) →
      (scrapedPrice cs os).Discount =
        ((scrapedPrice cs os).Original - (scrapedPrice cs os).Current) /
          (scrapedPrice cs os).Original * 100) ∧
    (¬(0 < (scrapedPrice cs os).Original ∧ 0 < (scrapedPrice cs os).Current) →
      (scrapedPrice cs os).Discount = 0) ∧
    (∀ data, (mapToProductDetail data).Price.Discount = 0) := by
  have hmap : ∀ data, (mapToProductDetail data).Price.Discount = 0 := by
    intro data
    unfold mapToProductDetail
    cases h : getObj data "price" <;> simp [h, DetailPrice.zero]
  obtain ⟨p2, heq, hd⟩ := scrapedPrice_eq_discountStep cs os
  rw [heq, discountStep_Original, discountStep_Current]
  exact ⟨(discountStep_Discount p2 hd).1, (discountStep_Discount p2 hd).2, hmap⟩

theorem parsePrice_1500 : parsePrice "1.500" = 1500 := by
  have h : parsePrice "1.500" = 1 * decValue ['1', '5', '0', '0'] [] := rfl
  have h2 : natOfDigits ['1', '5', '0', '0'] = 1500 := rfl
  have h3 : natOfDigits [] = 0 := rfl
  rw [h, decValue, h2, h3]
  norm_num

theorem parsePrice_2000 : parsePrice "2.000" = 2000 := by
  have h : parsePrice "2.000" = 1 * decValue ['2', '0', '0', '0'] [] := rfl
  have h2 : natOfDigits ['2', '0', '0', '0'] = 2000 := rfl
  have h3 : natOfDigits [] = 0 := rfl
  rw [h, decValue, h2, h3]
  norm_num

theorem scrapedPrice_eval :
    scrapedPrice "1.500" "2.000" =
      { Current := 1500, Original := 2000, Discount := 25, Currency := "CLP", PerUnit := "" } := by
  unfold scrapedPrice scrapedOriginalStep scrapedCurrentStep discountStep scrapedBase
  rw [parsePrice_1500, parsePrice_2000]
  simp
  norm_num

theorem scrapedPrice_eval2 :
    scrapedPrice "1.500" "" =
      { Current := 1500, Original := 0, Discount := 0, Currency := "CLP", PerUnit := "" } := by
  unfold scrapedPrice scrapedOriginalStep scrapedCurrentStep discountStep scrapedBase
  rw [parsePrice_1500]
  simp

/-- C7 witness: with a current price scraped as 1.500 and an original
price scraped as 2.000 (CLP thousand formatting) the derived discount is
25; with no original price match the discount stays 0. -/
theorem c7_discount_derivation_witness :
    (scrapedPrice "1.500" "2.000").Discount = 25 ∧
    (scrapedPrice "1.500" "").Discount = 0 := by
  constructor
  · have h1 : (0 : ℚ) < (scrapedPrice "1.500" "2.000").Original := by
      rw [scrapedPrice_eval]; norm_num
    have h2 : (0 : ℚ) < (scrapedPrice "1.500" "2.000").Current := by
      rw [scrapedPrice_eval]; norm_num
    have h := (c7_discount_derivation "1.500" "2.000").1 ⟨h1, h2⟩
    rw [h, scrapedPrice_eval]
    norm_num
  · exact (c7_discount_derivation "1.500" "").2.1
      (by rw [scrapedPrice_eval2]; norm_num)

/-- C8 counterexample: an HTML page whose only pattern match is the SKU
(no h1 name, no price) is still accepted by the detail pattern extractor:
it returns a record with zero prices, refuting the claim that acceptance
requires both a SKU/name and a price. -/
def skuOnlyPatterns : DetailPatterns := ⟨some "4522432", none, none⟩

theorem c8_counterexample :
    extractProductDetailFromHTMLPatterns skuOnlyPatterns =
      some { SKU := "4522432", Name := "", Brand := "", Description := "",
             Price := DetailPrice.zero, Images := [], Specifications := [],
             Availability := true, Stock := 0, Rating := 0, ReviewCount := 0,
             Category := "", URL := "" } ∧
    DetailPrice.zero.Current = 0 ∧ DetailPrice.zero.Original = 0 :=
  ⟨rfl, rfl, rfl⟩

/-- C8 amended: summary pattern extraction accepts a block exactly when it
yields both a non-empty identifier and a non-empty display name, silently
discarding the rest; detail pattern extraction rejects a page exactly when
both the SKU match and the trimmed h1 name are empty — a price is NOT
required for a detail record to be accepted. -/
theorem extractPatterns_valid (blocks : List PatternBlock) (p : Product)
    (hmem : p ∈ extractProductsFromHTMLPatterns blocks) :
    p.ID ≠ "" ∧ p.DisplayName ≠ "" := by
  induction blocks with
  | nil => simp [extractProductsFromHTMLPatterns] at hmem
  | cons b bs ih =>
    rw [extractProductsFromHTMLPatterns] at hmem
    split_ifs at hmem with hcond
    · rcases List.mem_cons.mp hmem with heq | h2
      · rw [heq]; exact hcond
      · exact ih h2
    · exact ih hmem

theorem c8_pattern_acceptance :
    (∀ (blocks : List PatternBlock) (p : Product),
        p ∈ extractProductsFromHTMLPatterns blocks →
        p.ID ≠ "" ∧ p.DisplayName ≠ "") ∧
    (∀ dp : DetailPatterns,
        extractProductDetailFromHTMLPatterns dp = none ↔
          dp.skuMatch.getD "" = "" ∧ trimString (dp.h1Match.getD "") = "") := by
  constructor
  · exact extractPatterns_valid
  · intro dp
    by_cases h : dp.skuMatch.getD "" = "" ∧ trimString (dp.h1Match.getD "") = ""
    · simp [extractProductDetailFromHTMLPatterns, h]
    · simp [extractProductDetailFromHTMLPatterns, h]

/-- C8 witness: a block carrying id 11 and title Leche is accepted and
indeed has a non-empty identifier and display name. -/
theorem c8_pattern_acceptance_witness :
    (blockToProduct ⟨some "11", some " Leche ", none⟩).ID ≠ "" ∧
    (blockToProduct ⟨some "11", some " Leche ", none⟩).DisplayName ≠ "" :=
  c8_pattern_acceptance.1 [⟨some "11", some " Leche ", none⟩]
    (blockToProduct ⟨some "11", some " Leche ", none⟩)
    (by
      have h : extractProductsFromHTMLPatterns [⟨some "11", some " Leche ", none⟩] =
          [blockToProduct ⟨some "11", some " Leche ", none⟩] := rfl
      rw [h]
      exact List.mem_singleton.mpr rfl)

/-- The built-in prefix table of generateFallbackSuggestions (part_001
lines 417-428), in source order. Go iterates the map in random order, but
at most one key can equal the first three characters of the term, so the
lookup result does not depend on the order. All keys are 3 ASCII
characters, so Go byte slicing term[:3] coincides with taking the first
three characters. -/
def commonSuggestions : List (String × List String) :=
  [("lec", ["leche", "leche descremada", "leche entera", "leche condensada", "lechuga"]),
   ("pan", ["pan", "pan integral", "pan molde", "pan hallulla", "panceta"]),
   ("arr", ["arroz", "arroz grado 1", "arroz integral", "arrollado"]),
   ("car", ["carne", "carne molida", "carne vacuno", "carnitas", "carbón"]),
   ("pol", ["pollo", "pollo entero", "pollo trozado", "pollo pechuga", "polenta"]),
   ("que", ["queso", "queso gauda", "queso mantecoso", "queso fresco", "queque"]),
   ("hue", ["huevos", "huevos blancos", "huevos color", "huevos codorniz"]),
   ("yog", ["yogurt", "yogurt natural", "yogurt griego", "yogurt light"]),
   ("man", ["mantequilla", "manzana", "manjar", "mandarina", "mango"]),
   ("cer", ["cereal", "cerveza", "cernir", "cerdo"])]

/-- generateFallbackSuggestions (part_001 lines 416-445): return the table
entry whose key equals the first three characters of a term of length at
least 3, else synthesize five generic suggestions by appending the fixed
qualifiers. -/
def generateFallbackSuggestions (term : String) : List String :=
  match commonSuggestions.find?
      (fun pr => decide (3 ≤ term.data.length) && ((term.data.take 3).asString == pr.1)) with
  | some pr => pr.2
  | none =>
    [term ++ " natural", term ++ " light", term ++ " premium",
     term ++ " casero", term ++ " integral"]

theorem genFallback_ne_nil (term : String) : generateFallbackSuggestions term ≠ [] := by
  unfold generateFallbackSuggestions
  cases hf : commonSuggestions.find?
      (fun pr => decide (3 ≤ term.data.length) && ((term.data.take 3).asString == pr.1)) with
  | none => simp
  | some pr =>
    have hmem : pr ∈ commonSuggestions := List.mem_of_find?_eq_some hf
    have hall : ∀ q ∈ commonSuggestions, q.2 ≠ [] := by decide
    simpa using hall pr hmem

/-- C9: the pure-local suggestions fallback: the term lec yields exactly
the fixed table entry; any term whose first three characters match no
table key (including terms shorter than three characters) yields exactly
the five synthesized term-plus-qualifier strings in fixed order; and the
fallback never returns an empty list, so it never fails. -/
theorem c9_fallback_suggestions :
    generateFallbackSuggestions "lec" =
      ["leche", "leche descremada", "leche entera", "leche condensada", "lechuga"] ∧
    (∀ term : String,
      (∀ pr ∈ commonSuggestions, ¬(3 ≤ term.data.length ∧ (term.data.take 3).asString = pr.1)) →
      generateFallbackSuggestions term =
        [term ++ " natural", term ++ " light", term ++ " premium",
         term ++ " casero", term ++ " integral"]) ∧
    (∀ term : String, generateFallbackSuggestions term ≠ []) := by
  refine ⟨rfl, ?_, genFallback_ne_nil⟩
  intro term h
  have hnone : commonSuggestions.find?
      (fun pr => decide (3 ≤ term.data.length) && ((term.data.take 3).asString == pr.1)) = none := by
    rw [List.find?_eq_none]
    intro pr hpr
    simp only [Bool.and_eq_true, decide_eq_true_eq, beq_iff_eq, not_and]
    intro h1 h2
    exact h pr hpr ⟨h1, h2⟩
  unfold generateFallbackSuggestions
  rw [hnone]

/-- C9 witness: the term xyz matches no table key and yields the five
synthesized suggestions. -/
theorem c9_fallback_suggestions_witness :
    generateFallbackSuggestions "xyz" =
      ["xyz" ++ " natural", "xyz" ++ " light", "xyz" ++ " premium",
       "xyz" ++ " casero", "xyz" ++ " integral"] :=
  c9_fallback_suggestions.2.1 "xyz" (by decide)

/-- Result of fetchSuggestionsAdvanced: a suggestion list, an error, or
the nil-error dereference that the last line of the Go function would
perform if it were ever reached with err equal to nil. -/
inductive SuggResult where
  | ok (suggestions : List String)
  | err (e : String)
  | nilErrDeref

/-- fetchSuggestionsAdvanced (part_001 lines 106-125): reject an empty
term; return the upstream suggestions when fetchSuggestions returned no
error and a non-empty list; otherwise use the local fallback when it is
non-empty; in the remaining case format err.Error() - which dereferences
a nil err when the upstream returned an empty list without error. The
upstream pair (err, suggestions) is the oracle for every possible return
of fetchSuggestions. -/
def fetchSuggestionsAdvanced (upstream : Option String × List String)
    (term : String) : SuggResult :=
  if term = "" then .err "term parameter cannot be empty"
  else if upstream.1 = none ∧ upstream.2 ≠ [] then .ok upstream.2
  else
    let fallbackSuggestions := generateFallbackSuggestions term
    if fallbackSuggestions ≠ [] then .ok fallbackSuggestions
    else
      match upstream.1 with
      | some e => .err ("suggestions failed: " ++ e)
      | none => .nilErrDeref

/-- C10: for every non-empty term and every possible upstream outcome,
fetchSuggestionsAdvanced returns a non-empty suggestion list and no
error, because generateFallbackSuggestions is never empty; in particular
the final branch is unreachable and the possibly-nil upstream error is
never dereferenced (for any term, empty ones included). -/
theorem c10_suggestions_never_fail :
    (∀ (upstream : Option String × List String) (term : String), term ≠ "" →
      ∃ xs, fetchSuggestionsAdvanced upstream term = SuggResult.ok xs ∧ xs ≠ []) ∧
    (∀ (upstream : Option String × List String) (term : String),
      fetchSuggestionsAdvanced upstream term ≠ SuggResult.nilErrDeref) := by
  constructor
  · intro upstream term h
    unfold fetchSuggestionsAdvanced
    rw [if_neg h]
    by_cases hfirst : upstream.1 = none ∧ upstream.2 ≠ []
    · rw [if_pos hfirst]
      exact ⟨upstream.2, rfl, hfirst.2⟩
    · rw [if_neg hfirst]
      simp only [ne_eq]
      rw [if_pos (by simpa using genFallback_ne_nil term)]
      exact ⟨generateFallbackSuggestions term, rfl, genFallback_ne_nil term⟩
  · intro upstream term
    unfold fetchSuggestionsAdvanced
    split_ifs with h1 h2
    · simp
    · simp
    · dsimp only
      rw [if_pos (genFallback_ne_nil term)]
      simp

/-- C10 witness: a term for which the upstream returned an empty list and
a nil error (the branch that would make the last line dereference nil)
still yields a non-empty fallback list. -/
theorem c10_suggestions_never_fail_witness :
    ∃ xs, fetchSuggestionsAdvanced (none, []) "lec" = SuggResult.ok xs ∧ xs ≠ [] :=
  c10_suggestions_never_fail.1 (none, []) "lec" (by decide)

/-- json.Unmarshal of an object field into a Go string field: missing or
null leaves the zero value, a string is taken, any other type is an
unmarshal type error (none). Field names are matched exactly as tagged. -/
def decStrField (o : List (String × Jval)) (k : String) : Option String :=
  match jLookup o k with
  | none => some ""
  | some .null => some ""
  | some (.str s) => some s
  | some _ => none

/-- json.Unmarshal into a float64 field. -/
def decNumField (o : List (String × Jval)) (k : String) : Option ℚ :=
  match jLookup o k with
  | none => some 0
  | some .null => some 0
  | some (.num q) => some q
  | some _ => none

/-- json.Unmarshal into an int field: a fractional JSON number is a type
error. -/
def decIntField (o : List (String × Jval)) (k : String) : Option Int :=
  match jLookup o k with
  | none => some 0
  | some .null => some 0
  | some (.num q) => if q.den = 1 then some q.num else none
  | some _ => none

/-- json.Unmarshal into a PriceInfo struct. -/
def decodePriceInfo (j : Jval) : Option PriceInfo :=
  match j with
  | .obj o => do
    let ref ← decNumField o "BasePriceReference"
    let sales ← decNumField o "BasePriceSales"
    pure ⟨ref, sales⟩
  | .null => some PriceInfo.zero
  | _ => none

/-- PriceInfo sub-struct field. -/
def decPriceField (o : List (String × Jval)) (k : String) : Option PriceInfo :=
  match jLookup o k with
  | none => some PriceInfo.zero
  | some j => decodePriceInfo j

/-- json.Unmarshal into an Images struct. -/
def decodeImages (j : Jval) : Option Images :=
  match j with
  | .obj o => do
    let d ← decStrField o "defaultImage"
    let m ← decStrField o "mediumImage"
    pure ⟨d, m⟩
  | .null => some Images.zero
  | _ => none

/-- Images sub-struct field. -/
def decImagesField (o : List (String × Jval)) (k : String) : Option Images :=
  match jLookup o k with
  | none => some Images.zero
  | some j => decodeImages j

/-- json.Unmarshal into a Product struct (tags of part_002 lines 16-23). -/
def decodeProduct (j : Jval) : Option Product :=
  match j with
  | .obj o => do
    let id ← decStrField o "ID"
    let brand ← decStrField o "brand"
    let description ← decStrField o "description"
    let displayName ← decStrField o "displayName"
    let price ← decPriceField o "price"
    let images ← decImagesField o "images"
    pure ⟨id, brand, description, displayName, price, images⟩
  | .null => some Product.zero
  | _ => none

/-- json.Unmarshal into a []Product slice. -/
def decodeProducts (j : Jval) : Option (List Product) :=
  match j with
  | .arr xs => xs.mapM decodeProduct
  | .null => some []
  | _ => none

/-- []Product sub-struct field. -/
def decProductsField (o : List (String × Jval)) (k : String) : Option (List Product) :=
  match jLookup o k with
  | none => some []
  | some j => decodeProducts j

/-- json.Unmarshal into the Response envelope (part_002 lines 70-75). -/
def decodeResponse (j : Jval) : Option Response :=
  match j with
  | .obj o => do
    let products ← decProductsField o "products"
    let nbHits ← decIntField o "nbHits"
    let page ← decIntField o "page"
    let nbPages ← decIntField o "nbPages"
    pure ⟨products, nbHits, page, nbPages⟩
  | .null => some ⟨[], 0, 0, 0⟩
  | _ => none

/-- Outcome of one plain httpClient.Do + io.ReadAll round trip, as seen by
the simple fetchers: a transport/read error with its message, or a
response with status and body. -/
inductive PlainResult where
  | doErr (e : String)
  | resp (status : Nat) (body : Body)

/-- Search page URL of the paginating fetchProducts (part_003 lines 49-72);
url.QueryEscape is modelled as the identity since URLs only serve as oracle
keys here. -/
def searchPagedURL (query : String) (page : Int) : String :=
  "https://apps.lider.cl/supermercado/search?query=" ++ query ++ "&page=" ++ toString page

/-- The pages after the first: 2, 3, ..., NbPages (empty when NbPages is
below 2), as iterated by the Go loop of part_003 lines 71-87. -/
def pagesFrom2 (nbPages : Int) : List Int :=
  List.map (fun n => Int.ofNat n) (List.range' 2 ((nbPages - 1).toNat))

/-- One paginated fetch-and-parse: some Response when the request, the 200
status check and the JSON unmarshal all succeed, none otherwise. This is
the condition sequence of both the page-1 block and the per-page loop body
of part_003. -/
def pageFetch (penv : String → PlainResult) (query : String) (p : Int) : Option Response :=
  match penv (searchPagedURL query p) with
  | .doErr _ => none
  | .resp status body => if status == 200 then body.json.bind decodeResponse else none

/-- The loop body of part_003 lines 71-87: a page that fails to fetch,
returns a non-200 status, or fails to parse contributes nothing (continue);
a good page contributes its Products. -/
def pageChunk (penv : String → PlainResult) (query : String) (p : Int) : List Product :=
  match pageFetch penv query p with
  | some rp => rp.Products
  | none => []

/-- fetchProducts (part_003 lines 48-89), the paginating search fetcher:
fetch page 1 (errors and non-200 abort with an error; the JSON unmarshal
error message is modelled as a fixed string; resp.Status is rendered as
the numeric code), read NbPages from the envelope, then append each later
page in order, skipping failed pages. The first component records the page
numbers requested, in order. -/
def fetchProducts (penv : String → PlainResult) (query : String) :
    List Int × Except String (List Product) :=
  match penv (searchPagedURL query 1) with
  | .doErr e => ([1], .error e)
  | .resp status body =>
    if status ≠ 200 then
      ([1], .error ("search failed: " ++ toString status ++ " — " ++ body.text))
    else
      match body.json.bind decodeResponse with
      | none => ([1], .error "failed to unmarshal search response")
      | some r =>
        (1 :: pagesFrom2 r.NbPages,
          .ok (r.Products ++ (List.map (pageChunk penv query) (pagesFrom2 r.NbPages)).flatten))

theorem pagesFrom2_nodup (nbPages : Int) : (pagesFrom2 nbPages).Nodup := by
  unfold pagesFrom2
  exact (List.nodup_range' 2 _).map (fun a b h => Int.ofNat.inj h)

theorem pagesFrom2_ge_two (nbPages : Int) (p : Int) (h : p ∈ pagesFrom2 nbPages) :
    2 ≤ p := by
  unfold pagesFrom2 at h
  obtain ⟨n, hn, rfl⟩ := List.mem_map.mp h
  have h2 := (List.mem_range'_1.mp hn).1
  exact Int.ofNat_le.mpr h2

/-- C2: the paginating search fetcher. When page 1 fetches and parses to
envelope r, the operation (a) succeeds, returning exactly the page-1
records followed by the contribution of each page 2..NbPages in order, in
which a page that fails to fetch, returns non-200, or fails to parse
contributes nothing and does not abort the operation; (b) requests page 1
and then each remaining page exactly once, with no repeat request (so no
per-page retry); and (c) introduces no duplicates of its own: whenever the
upstream pages are individually duplicate-free and pairwise disjoint, the
concatenated result is duplicate-free. -/
theorem c2_search_pagination (penv : String → PlainResult) (query : String)
    (r : Response) (h1 : pageFetch penv query 1 = some r) :
    (fetchProducts penv query).2 =
      Except.ok (r.Products ++ (List.map (pageChunk penv query) (pagesFrom2 r.NbPages)).flatten) ∧
    (fetchProducts penv query).1 = 1 :: pagesFrom2 r.NbPages ∧
    ((fetchProducts penv query).1).Nodup ∧
    (∀ p ∈ pagesFrom2 r.NbPages, pageFetch penv query p = none →
      pageChunk penv query p = []) ∧
    (r.Products.Nodup →
      (∀ p ∈ pagesFrom2 r.NbPages, (pageChunk penv query p).Nodup) →
      List.Pairwise List.Disjoint
        (r.Products :: List.map (pageChunk penv query) (pagesFrom2 r.NbPages)) →
      (r.Products ++ (List.map (pageChunk penv query) (pagesFrom2 r.NbPages)).flatten).Nodup) := by
  have hfetch : fetchProducts penv query =
      (1 :: pagesFrom2 r.NbPages,
        Except.ok (r.Products ++ (List.map (pageChunk penv query) (pagesFrom2 r.NbPages)).flatten)) := by
    unfold pageFetch at h1
    unfold fetchProducts
    cases hp : penv (searchPagedURL query 1) with
    | doErr e =>
      rw [hp] at h1
      simp at h1
    | resp status body =>
      rw [hp] at h1
      dsimp only at h1 ⊢
      by_cases hs : status = 200
      · subst hs
        rw [if_pos (show ((200 : Nat) == 200) = true from rfl)] at h1
        rw [if_neg (by omega), h1]
      · rw [if_neg (by simpa using hs)] at h1
        simp at h1
  refine ⟨by rw [hfetch], by rw [hfetch], ?_, ?_, ?_⟩
  · rw [hfetch]
    refine List.Nodup.cons ?_ (pagesFrom2_nodup r.NbPages)
    intro hmem
    have := pagesFrom2_ge_two r.NbPages 1 hmem
    omega
  · intro p _ hnone
    unfold pageChunk
    rw [hnone]
  · intro hnd hall hdisj
    have hjoin : r.Products ++ (List.map (pageChunk penv query) (pagesFrom2 r.NbPages)).flatten =
        (r.Products :: List.map (pageChunk penv query) (pagesFrom2 r.NbPages)).flatten := rfl
    rw [hjoin, List.nodup_flatten]
    refine ⟨?_, hdisj⟩
    intro l hl
    rcases List.mem_cons.mp hl with rfl | hl2
    · exact hnd
    · obtain ⟨p, hp, rfl⟩ := List.mem_map.mp hl2
      exact hall p hp

/-- Body of the witness search page 1: a products array with product a and
a total page count of 2. -/
def searchBody1 : Body :=
  { text := ""
    json := some (.obj [("products", Jval.arr [Jval.obj [("ID", Jval.str "a")]]),
                        ("nbPages", Jval.num 2)])
    initialState := none
    patternBlocks := []
    detailPatterns := ⟨none, none, none⟩ }

/-- Body of the witness search page 2: a products array with product b. -/
def searchBody2 : Body :=
  { text := ""
    json := some (.obj [("products", Jval.arr [Jval.obj [("ID", Jval.str "b")]])])
    initialState := none
    patternBlocks := []
    detailPatterns := ⟨none, none, none⟩ }

/-- A two-page upstream for the search term leche. -/
def pagedEnv : String → PlainResult := fun u =>
  if u = searchPagedURL "leche" 1 then .resp 200 searchBody1
  else if u = searchPagedURL "leche" 2 then .resp 200 searchBody2
  else .doErr "no such page"

/-- C2 witness: on the concrete two-page upstream, the search returns the
records of page 1 followed by those of page 2 and requests pages 1 and 2
once each. -/
theorem c2_search_pagination_witness :
    (fetchProducts pagedEnv "leche").2 =
      Except.ok [{ Product.zero with ID := "a" }, { Product.zero with ID := "b" }] ∧
    (fetchProducts pagedEnv "leche").1 = [1, 2] := by
  have h := c2_search_pagination pagedEnv "leche"
    { Products := [{ Product.zero with ID := "a" }], NbHits := 0, Page := 0, NbPages := 2 }
    rfl
  refine ⟨?_, ?_⟩
  · rw [h.1]; rfl
  · rw [h.2.1]; rfl

/-- The dynamic type of a ScrapingResult Data value (Go interface): raw
decoded JSON from tryAPIEndpoint, a []Product from scrapeSearchPage, or a
*ProductDetail from scrapeProductPage. -/
inductive ScrapedData where
  | json (j : Jval)
  | products (ps : List Product)
  | detail (d : ProductDetail)

/-- ScrapingResult (part_000 lines 26-31); Data none is the Go nil
interface. -/
structure ScrapingResult where
  Success : Bool
  Data : Option ScrapedData
  Error : String
  Source : String

/-- Search API endpoint of FetchProductsAdvanced (part_000 line 174);
url.QueryEscape is modelled as the identity, URLs being oracle keys. -/
def searchApiURL (query : String) : String :=
  "https://apps.lider.cl/supermercado/search?query=" ++ query

/-- Search page of the scraping fallback (part_000 line 181). -/
def searchPageURL (query : String) : String :=
  "https://www.lider.cl/supermercado/search?query=" ++ query

/-- Product page URL (part_000 line 220). -/
def productPageURL (sku : String) : String :=
  "https://www.lider.cl/supermercado/product/sku/" ++ sku

/-- The three candidate detail API endpoints, in priority order (part_000
lines 205-209). -/
def detailAPIEndpoints (sku : String) : List String :=
  ["https://apps.lider.cl/supermercado/product?sku=" ++ sku,
   "https://apps.lider.cl/supermercado/product/" ++ sku,
   "https://www.lider.cl/catalogo/api/products/" ++ sku]

/-- Promotions scraping page (part_001 line 141). -/
def promotionsPageURL (promoType : String) : String :=
  "https://www.lider.cl/supermercado/ofertas?type=" ++ promoType

/-- Category scraping page (part_001 line 171). -/
def categoryPageURL (categoryID : String) : String :=
  "https://www.lider.cl/supermercado/category/" ++ categoryID

/-- Promotions API endpoint of the plain fetchPromotions (part_002). -/
def promotionsAPIURL (promoType : String) : String :=
  "https://apps.lider.cl/supermercado/promotions?type=" ++ promoType

/-- Category API endpoint of the plain fetchCategory (part_002). -/
def categoryAPIURL (categoryID : String) : String :=
  "https://apps.lider.cl/supermercado/category?id=" ++ categoryID

/-- tryAPIEndpoint (part_000 lines 235-269): one governed transport call;
non-200 is an error; the body must parse as JSON, in which case the raw
decoded value is the Data. -/
def tryAPIEndpoint (aenv : String → Nat → DoResult) (endpoint : String) : ScrapingResult :=
  match (makeRequest (aenv endpoint)).result with
  | .error e => ⟨false, none, e, ""⟩
  | .ok (status, body) =>
    if status ≠ 200 then ⟨false, none, "API returned status " ++ toString status, ""⟩
    else
      match body.json with
      | none => ⟨false, none, "failed to parse JSON response", ""⟩
      | some j => ⟨true, some (.json j), "", ""⟩

/-- scrapeSearchPage (part_000 lines 272-302). -/
def scrapeSearchPage (aenv : String → Nat → DoResult) (searchURL : String) : ScrapingResult :=
  match (makeRequest (aenv searchURL)).result with
  | .error e => ⟨false, none, e, ""⟩
  | .ok (status, body) =>
    if status ≠ 200 then ⟨false, none, "search page returned status " ++ toString status, ""⟩
    else
      let products := extractProductsFromHTML body
      if products.isEmpty then ⟨false, none, "no products found in search results", ""⟩
      else ⟨true, some (.products products), "", ""⟩

/-- scrapeProductPage (part_000 lines 305-335). -/
def scrapeProductPage (aenv : String → Nat → DoResult) (productURL : String) : ScrapingResult :=
  match (makeRequest (aenv productURL)).result with
  | .error e => ⟨false, none, e, ""⟩
  | .ok (status, body) =>
    if status ≠ 200 then ⟨false, none, "product page returned status " ++ toString status, ""⟩
    else
      match extractProductDetailFromHTML body with
      | none => ⟨false, none, "could not extract product details from page", ""⟩
      | some product => ⟨true, some (.detail product), "", ""⟩

/-- FetchProductsAdvanced (part_000 lines 165-193): API tier first, then
scraping, else the composite failure naming both reasons. -/
def FetchProductsAdvanced (aenv : String → Nat → DoResult) (query : String) : ScrapingResult :=
  if query = "" then ⟨false, none, "query parameter cannot be empty", ""⟩
  else
    let apiResult := tryAPIEndpoint aenv (searchApiURL query)
    if apiResult.Success then { apiResult with Source := "api" }
    else
      let scrapingResult := scrapeSearchPage aenv (searchPageURL query)
      if scrapingResult.Success then { scrapingResult with Source := "scraping" }
      else
        ⟨false, none,
          "API failed: " ++ apiResult.Error ++ ", Scraping failed: " ++ scrapingResult.Error,
          "none"⟩

/-- The endpoint loop of FetchProductDetailAdvanced (part_000 lines
211-217): first successful API endpoint wins. -/
def firstAPISuccess (aenv : String → Nat → DoResult) : List String → Option ScrapingResult
  | [] => none
  | endpoint :: rest =>
    let result := tryAPIEndpoint aenv endpoint
    if result.Success then some { result with Source := "api" }
    else firstAPISuccess aenv rest

/-- FetchProductDetailAdvanced (part_000 lines 196-232): three API
endpoints, then page scraping, else a fixed failure message that does not
carry the tier reasons. -/
def FetchProductDetailAdvanced (aenv : String → Nat → DoResult) (sku : String) : ScrapingResult :=
  if sku = "" then ⟨false, none, "SKU parameter cannot be empty", ""⟩
  else
    match firstAPISuccess aenv (detailAPIEndpoints sku) with
    | some result => result
    | none =>
      let scrapingResult := scrapeProductPage aenv (productPageURL sku)
      if scrapingResult.Success then { scrapingResult with Source := "scraping" }
      else ⟨false, none, "all methods failed - product may not exist or be blocked", "none"⟩

/-- mapInterfaceToProduct (part_001 lines 266-324): like mapToProduct but
with alternate key fallbacks and tolerance for both image shapes. -/
def mapInterfaceToProduct (data : List (String × Jval)) : Product :=
  { ID := ((getStr data "id").orElse (fun _ => getStr data "ID")).getD ""
    Brand := (getStr data "brand").getD ""
    Description := (getStr data "description").getD ""
    DisplayName := ((getStr data "displayName").orElse (fun _ => getStr data "name")).getD ""
    Price :=
      match getObj data "price" with
      | some priceData =>
        { BasePriceReference :=
            ((getNum priceData "BasePriceReference").orElse
              (fun _ => getNum priceData "original")).getD 0
          BasePriceSales :=
            ((getNum priceData "BasePriceSales").orElse
              (fun _ => getNum priceData "current")).getD 0 }
      | none => PriceInfo.zero
    Images :=
      match getObj data "images" with
      | some imageData =>
        { DefaultImage := (getStr imageData "defaultImage").getD ""
          MediumImage := (getStr imageData "mediumImage").getD "" }
      | none =>
        match getArr data "images" with
        | some images =>
          if 0 < images.length then
            { DefaultImage := (strAt images 0).getD ""
              MediumImage := if 1 < images.length then (strAt images 1).getD "" else "" }
          else Images.zero
        | none => Images.zero }

/-- The per-item loop of convertToProducts (part_001 lines 195-201 and
206-213): map each object item and keep it only when the identifier or
the display name is non-empty. -/
def convertItems (items : List Jval) : List Product :=
  items.foldr
    (fun item acc =>
      match item with
      | .obj productMap =>
        let product := mapInterfaceToProduct productMap
        if product.ID ≠ "" ∨ product.DisplayName ≠ "" then product :: acc else acc
      | _ => acc)
    []

/-- convertToProducts (part_001 lines 188-238), by dynamic type of the
data value; none is the Go nil interface. The Go default branch (marshal,
then re-unmarshal) is mapped case by case: nil marshals to null, which
unmarshals into a nil []Product (success, empty); a ProductDetail
marshals to an object that fails as []Product but unmarshals into a
Response with no products field (success, empty); bool, number and string
fail both attempts and report the unsupported dynamic type. -/
def convertToProducts : Option ScrapedData → Except String (List Product)
  | some (.products ps) => .ok ps
  | some (.json (.arr items)) => .ok (convertItems items)
  | some (.json (.obj v)) =>
    match jLookup v "products" with
    | some (.arr productsData) => .ok (convertItems productsData)
    | _ => .ok []
  | some (.json .null) => .ok []
  | none => .ok []
  | some (.json (.bool _)) => .error "unsupported data format: bool"
  | some (.json (.num _)) => .error "unsupported data format: float64"
  | some (.json (.str _)) => .error "unsupported data format: string"
  | some (.detail _) => .ok []

/-- fetchProductsAdvanced (part_001 lines 60-80). -/
def fetchProductsAdvanced (aenv : String → Nat → DoResult) (query : String) :
    Except String (List Product) :=
  if query = "" then .error "query parameter cannot be empty"
  else
    let result := FetchProductsAdvanced aenv query
    if result.Success then
      match convertToProducts result.Data with
      | .error e => .error ("failed to convert search results: " ++ e)
      | .ok products => .ok products
    else .error ("search failed: " ++ result.Error)

/-- fetchPromotions (part_002 lines 377-417), the plain promotions API
fetcher: note that the decoded Products list is returned without any
validity filtering. The JSON unmarshal error message is modelled as a
fixed string. -/
def fetchPromotions (penv : String → PlainResult) (promoType : String) :
    Except String (List Product) :=
  if promoType = "" then .error "promoType parameter cannot be empty"
  else
    match penv (promotionsAPIURL promoType) with
    | .doErr e => .error ("request failed: " ++ e)
    | .resp status body =>
      if status ≠ 200 then
        .error ("promotions failed with status " ++ toString status ++ ": " ++ body.text)
      else
        match body.json.bind decodeResponse with
        | none => .error "failed to parse JSON response"
        | some r => .ok r.Products

/-- fetchCategory (part_002 lines 420-460), the plain category API
fetcher; also unfiltered. -/
def fetchCategory (penv : String → PlainResult) (categoryID : String) :
    Except String (List Product) :=
  if categoryID = "" then .error "categoryID parameter cannot be empty"
  else
    match penv (categoryAPIURL categoryID) with
    | .doErr e => .error ("request failed: " ++ e)
    | .resp status body =>
      if status ≠ 200 then
        .error ("category failed with status " ++ toString status ++ ": " ++ body.text)
      else
        match body.json.bind decodeResponse with
        | none => .error "failed to parse JSON response"
        | some r => .ok r.Products

/-- Result of the advanced promotions/category orchestrators; nilDeref
marks the branch in which the Go code formats err.Error() with a nil err
(reachable when the plain tier returned an empty list without error and
scraping then failed). -/
inductive AdvFetchResult where
  | ok (products : List Product)
  | err (e : String)
  | nilDeref

/-- The scraping fallback block of fetchPromotionsAdvanced (part_001 lines
139-155); apiErr is the err value at that point. -/
def promoFallback (aenv : String → Nat → DoResult) (promoType : String)
    (apiErr : Option String) : AdvFetchResult :=
  let result := scrapeSearchPage aenv (promotionsPageURL promoType)
  if result.Success then
    match convertToProducts result.Data with
    | .error e => .err ("failed to convert promotion results: " ++ e)
    | .ok products => .ok products
  else
    match apiErr with
    | some e =>
      .err ("promotions failed: original API error: " ++ e ++
        ", scraping error: " ++ result.Error)
    | none => .nilDeref

/-- fetchPromotionsAdvanced (part_001 lines 128-155): plain API tier
first; its result is returned only when it carried no error and a
non-empty list. -/
def fetchPromotionsAdvanced (penv : String → PlainResult)
    (aenv : String → Nat → DoResult) (promoType : String) : AdvFetchResult :=
  if promoType = "" then .err "promoType parameter cannot be empty"
  else
    match fetchPromotions penv promoType with
    | .ok products =>
      if products.isEmpty then promoFallback aenv promoType none
      else .ok products
    | .error e => promoFallback aenv promoType (some e)

/-- The scraping fallback block of fetchCategoryAdvanced (part_001 lines
169-185). -/
def categoryFallback (aenv : String → Nat → DoResult) (categoryID : String)
    (apiErr : Option String) : AdvFetchResult :=
  let result := scrapeSearchPage aenv (categoryPageURL categoryID)
  if result.Success then
    match convertToProducts result.Data with
    | .error e => .err ("failed to convert category results: " ++ e)
    | .ok products => .ok products
  else
    match apiErr with
    | some e =>
      .err ("category failed: original API error: " ++ e ++
        ", scraping error: " ++ result.Error)
    | none => .nilDeref

/-- fetchCategoryAdvanced (part_001 lines 158-185). -/
def fetchCategoryAdvanced (penv : String → PlainResult)
    (aenv : String → Nat → DoResult) (categoryID : String) : AdvFetchResult :=
  if categoryID = "" then .err "categoryID parameter cannot be empty"
  else
    match fetchCategory penv categoryID with
    | .ok products =>
      if products.isEmpty then categoryFallback aenv categoryID none
      else .ok products
    | .error e => categoryFallback aenv categoryID (some e)

theorem firstAPISuccess_none (aenv : String → Nat → DoResult) (eps : List String)
    (h : ∀ ep ∈ eps, (tryAPIEndpoint aenv ep).Success = false) :
    firstAPISuccess aenv eps = none := by
  induction eps with
  | nil => rfl
  | cons a rest ih =>
    unfold firstAPISuccess
    dsimp only
    rw [if_neg (by simp [h a (List.mem_cons_self a rest)])]
    exact ih (fun ep hep => h ep (List.mem_cons_of_mem a hep))

/-- C1 amended: search, promotions and category compose both tier failure
reasons into the returned failure (shown as the exact format string, plus
both reasons occurring as substrings for search), but the detail-by-SKU
operation does not: when all its API endpoints and the page scrape fail,
FetchProductDetailAdvanced returns the fixed reason string, which carries
neither tier reason. -/
theorem c1_composite_failure :
    (∀ (aenv : String → Nat → DoResult) (query : String), query ≠ "" →
      (tryAPIEndpoint aenv (searchApiURL query)).Success = false →
      (scrapeSearchPage aenv (searchPageURL query)).Success = false →
      (FetchProductsAdvanced aenv query).Error =
        "API failed: " ++ (tryAPIEndpoint aenv (searchApiURL query)).Error ++
          ", Scraping failed: " ++ (scrapeSearchPage aenv (searchPageURL query)).Error ∧
      (tryAPIEndpoint aenv (searchApiURL query)).Error.data <:+:
        (FetchProductsAdvanced aenv query).Error.data ∧
      (scrapeSearchPage aenv (searchPageURL query)).Error.data <:+:
        (FetchProductsAdvanced aenv query).Error.data) ∧
    (∀ (penv : String → PlainResult) (aenv : String → Nat → DoResult)
        (promoType e : String), promoType ≠ "" →
      fetchPromotions penv promoType = Except.error e →
      (scrapeSearchPage aenv (promotionsPageURL promoType)).Success = false →
      fetchPromotionsAdvanced penv aenv promoType =
        AdvFetchResult.err ("promotions failed: original API error: " ++ e ++
          ", scraping error: " ++ (scrapeSearchPage aenv (promotionsPageURL promoType)).Error)) ∧
    (∀ (penv : String → PlainResult) (aenv : String → Nat → DoResult)
        (categoryID e : String), categoryID ≠ "" →
      fetchCategory penv categoryID = Except.error e →
      (scrapeSearchPage aenv (categoryPageURL categoryID)).Success = false →
      fetchCategoryAdvanced penv aenv categoryID =
        AdvFetchResult.err ("category failed: original API error: " ++ e ++
          ", scraping error: " ++ (scrapeSearchPage aenv (categoryPageURL categoryID)).Error)) ∧
    (∀ (aenv : String → Nat → DoResult) (sku : String), sku ≠ "" →
      (∀ ep ∈ detailAPIEndpoints sku, (tryAPIEndpoint aenv ep).Success = false) →
      (scrapeProductPage aenv (productPageURL sku)).Success = false →
      (FetchProductDetailAdvanced aenv sku).Error =
        "all methods failed - product may not exist or be blocked") := by
  refine ⟨?_, ?_, ?_, ?_⟩
  · intro aenv query hq hapi hscr
    unfold FetchProductsAdvanced
    rw [if_neg hq]
    dsimp only
    rw [if_neg (by simp [hapi]), if_neg (by simp [hscr])]
    refine ⟨rfl, ?_, ?_⟩
    · exact ⟨"API failed: ".data,
        (", Scraping failed: " ++ (scrapeSearchPage aenv (searchPageURL query)).Error).data,
        by simp [String.data_append]⟩
    · exact ⟨("API failed: " ++ (tryAPIEndpoint aenv (searchApiURL query)).Error ++
          ", Scraping failed: ").data, [],
        by simp [String.data_append]⟩
  · intro penv aenv promoType e ht hfetch hscr
    unfold fetchPromotionsAdvanced
    rw [if_neg ht, hfetch]
    unfold promoFallback
    dsimp only
    rw [if_neg (by simp [hscr])]
  · intro penv aenv categoryID e ht hfetch hscr
    unfold fetchCategoryAdvanced
    rw [if_neg ht, hfetch]
    unfold categoryFallback
    dsimp only
    rw [if_neg (by simp [hscr])]
  · intro aenv sku hs hall hscr
    unfold FetchProductDetailAdvanced
    rw [if_neg hs, firstAPISuccess_none aenv (detailAPIEndpoints sku) hall]
    dsimp only
    rw [if_neg (by simp [hscr])]

/-- A network that answers every request, on every attempt, with a bare
status 500 response: both tiers of every operation fail. -/
def env500 : String → Nat → DoResult := fun _ _ => DoResult.resp 500 Body.empty

/-- C1 counterexample: with every upstream request answered 500, all three
detail API endpoints fail with reason API returned status 500 and the page
scrape fails with reason product page returned status 500, yet
FetchProductDetailAdvanced returns the fixed failure string, which
contains neither the API failure reason nor the scraping failure reason —
so the claim is false for the detail-by-SKU operation. -/
theorem c1_counterexample :
    (FetchProductDetailAdvanced env500 "123").Success = false ∧
    (tryAPIEndpoint env500 ("https://apps.lider.cl/supermercado/product?sku=" ++ "123")).Error =
      "API returned status 500" ∧
    (scrapeProductPage env500 (productPageURL "123")).Error =
      "product page returned status 500" ∧
    (FetchProductDetailAdvanced env500 "123").Error =
      "all methods failed - product may not exist or be blocked" ∧
    ¬("API returned status 500".data <:+:
      (FetchProductDetailAdvanced env500 "123").Error.data) ∧
    ¬("product page returned status 500".data <:+:
      (FetchProductDetailAdvanced env500 "123").Error.data) := by
  refine ⟨rfl, rfl, rfl, rfl, ?_, ?_⟩
  · decide
  · decide

/-- C1 witness: on the all-500 network the search operation does produce
the composite failure naming both tier reasons. -/
theorem c1_composite_failure_witness :
    (FetchProductsAdvanced env500 "leche").Error =
      "API failed: API returned status 500, Scraping failed: search page returned status 500" :=
  (c1_composite_failure.1 env500 "leche" (by decide) rfl rfl).1

theorem structuredFold_mem (results : List Jval) (p : Product)
    (h : p ∈ results.foldr
      (fun item acc =>
        match item with
        | Jval.obj productMap =>
          let product := mapToProduct productMap
          if product.ID ≠ "" then product :: acc else acc
        | _ => acc)
      []) :
    p.ID ≠ "" := by
  induction results with
  | nil => simp at h
  | cons it rest ih =>
    rw [List.foldr_cons] at h
    cases it with
    | obj productMap =>
      dsimp only at h
      split_ifs at h with hc
      · rcases List.mem_cons.mp h with heq | h2
        · rw [heq]; exact hc
        · exact ih h2
      · exact ih h
    | null => exact ih h
    | bool b => exact ih h
    | num q => exact ih h
    | str s => exact ih h
    | arr xs => exact ih h

theorem structuredProducts_valid (body : Body) (p : Product)
    (h : p ∈ structuredProducts body) : p.ID ≠ "" := by
  unfold structuredProducts at h
  split at h
  · split at h
    · split at h
      · exact structuredFold_mem _ p h
      · simp at h
    · simp at h
  · simp at h

theorem convertItems_valid (items : List Jval) (p : Product)
    (h : p ∈ convertItems items) : p.ID ≠ "" ∨ p.DisplayName ≠ "" := by
  unfold convertItems at h
  induction items with
  | nil => simp at h
  | cons it rest ih =>
    rw [List.foldr_cons] at h
    cases it with
    | obj productMap =>
      dsimp only at h
      split_ifs at h with hc
      · rcases List.mem_cons.mp h with heq | h2
        · rw [heq]; exact hc
        · exact ih h2
      · exact ih h
    | null => exact ih h
    | bool b => exact ih h
    | num q => exact ih h
    | str s => exact ih h
    | arr xs => exact ih h

theorem extractProductsFromHTML_valid (body : Body) (p : Product)
    (h : p ∈ extractProductsFromHTML body) : p.ID ≠ "" ∨ p.DisplayName ≠ "" := by
  unfold extractProductsFromHTML at h
  dsimp only at h
  split_ifs at h with hempty
  · exact Or.inl ((extractPatterns_valid body.patternBlocks p h).1)
  · exact Or.inl (structuredProducts_valid body p h)

theorem convertToProducts_json_valid (j : Jval) (ps : List Product)
    (h : convertToProducts (some (ScrapedData.json j)) = Except.ok ps)
    (p : Product) (hp : p ∈ ps) : p.ID ≠ "" ∨ p.DisplayName ≠ "" := by
  cases j with
  | arr items =>
    rw [convertToProducts] at h
    cases h
    exact convertItems_valid items p hp
  | obj v =>
    rw [convertToProducts] at h
    split at h
    · cases h
      exact convertItems_valid _ p hp
    · cases h
      simp at hp
  | null =>
    rw [convertToProducts] at h
    cases h
    simp at hp
  | bool b => rw [convertToProducts] at h; cases h
  | num q => rw [convertToProducts] at h; cases h
  | str s => rw [convertToProducts] at h; cases h

theorem tryAPIEndpoint_success_data (aenv : String → Nat → DoResult) (ep : String)
    (h : (tryAPIEndpoint aenv ep).Success = true) :
    ∃ j, (tryAPIEndpoint aenv ep).Data = some (ScrapedData.json j) := by
  unfold tryAPIEndpoint at h ⊢
  revert h
  cases hr : (makeRequest (aenv ep)).result with
  | error e => intro h; simp at h
  | ok sb =>
    obtain ⟨status, body⟩ := sb
    intro h
    dsimp only at h ⊢
    by_cases h1 : status ≠ 200
    · rw [if_pos h1] at h; simp at h
    · rw [if_neg h1] at h ⊢
      cases hj : body.json with
      | none => rw [hj] at h; simp at h
      | some j => exact ⟨j, rfl⟩

theorem scrapeSearchPage_success_data (aenv : String → Nat → DoResult) (u : String)
    (h : (scrapeSearchPage aenv u).Success = true) :
    ∃ ps, (scrapeSearchPage aenv u).Data = some (ScrapedData.products ps) ∧
      ∀ p ∈ ps, p.ID ≠ "" ∨ p.DisplayName ≠ "" := by
  unfold scrapeSearchPage at h ⊢
  revert h
  cases hr : (makeRequest (aenv u)).result with
  | error e => intro h; simp at h
  | ok sb =>
    obtain ⟨status, body⟩ := sb
    intro h
    dsimp only at h ⊢
    by_cases h1 : status ≠ 200
    · rw [if_pos h1] at h; simp at h
    · rw [if_neg h1] at h ⊢
      by_cases h2 : (extractProductsFromHTML body).isEmpty
      · rw [if_pos h2] at h; simp at h
      · rw [if_neg h2]
        exact ⟨extractProductsFromHTML body, rfl,
          fun p hp => extractProductsFromHTML_valid body p hp⟩

theorem FetchProductsAdvanced_success_data (aenv : String → Nat → DoResult)
    (query : String) (h : (FetchProductsAdvanced aenv query).Success = true) :
    (∃ j, (FetchProductsAdvanced aenv query).Data = some (ScrapedData.json j)) ∨
    (∃ ps, (FetchProductsAdvanced aenv query).Data = some (ScrapedData.products ps) ∧
      ∀ p ∈ ps, p.ID ≠ "" ∨ p.DisplayName ≠ "") := by
  unfold FetchProductsAdvanced at h ⊢
  by_cases hq : query = ""
  · rw [if_pos hq] at h; simp at h
  · rw [if_neg hq] at h ⊢
    dsimp only at h ⊢
    by_cases hapi : (tryAPIEndpoint aenv (searchApiURL query)).Success = true
    · rw [if_pos hapi]
      obtain ⟨j, hj⟩ := tryAPIEndpoint_success_data aenv (searchApiURL query) hapi
      exact Or.inl ⟨j, hj⟩
    · rw [if_neg hapi] at h ⊢
      by_cases hscr : (scrapeSearchPage aenv (searchPageURL query)).Success = true
      · rw [if_pos hscr]
        obtain ⟨ps, hps, hval⟩ := scrapeSearchPage_success_data aenv (searchPageURL query) hscr
        exact Or.inr ⟨ps, hps, hval⟩
      · rw [if_neg hscr] at h; simp at h

/-- C6 amended: normalization does drop invalid records on the tiers that
have it: every list produced by convertToProducts from decoded JSON data,
every list produced by HTML extraction, and hence every list surfaced by
the advanced search operation, contains only valid records (non-empty
identifier or display name). The claim is nevertheless false for the
promotions and category operations, whose first (plain JSON API) tier
returns the deserialized upstream list unfiltered (see the
counterexample). -/
theorem c6_valid_records :
    (∀ (j : Jval) (ps : List Product),
        convertToProducts (some (ScrapedData.json j)) = Except.ok ps →
        ∀ p ∈ ps, p.ID ≠ "" ∨ p.DisplayName ≠ "") ∧
    (∀ (body : Body) (p : Product), p ∈ extractProductsFromHTML body →
        p.ID ≠ "" ∨ p.DisplayName ≠ "") ∧
    (∀ (aenv : String → Nat → DoResult) (query : String) (ps : List Product),
        fetchProductsAdvanced aenv query = Except.ok ps →
        ∀ p ∈ ps, p.ID ≠ "" ∨ p.DisplayName ≠ "") := by
  refine ⟨convertToProducts_json_valid, extractProductsFromHTML_valid, ?_⟩
  intro aenv query ps h p hp
  unfold fetchProductsAdvanced at h
  by_cases hq : query = ""
  · rw [if_pos hq] at h; cases h
  · rw [if_neg hq] at h
    dsimp only at h
    by_cases hsucc : (FetchProductsAdvanced aenv query).Success = true
    · rw [if_pos hsucc] at h
      rcases FetchProductsAdvanced_success_data aenv query hsucc with ⟨j, hj⟩ | ⟨ps2, hps2, hval⟩
      · rw [hj] at h
        cases hc : convertToProducts (some (ScrapedData.json j)) with
        | error e => rw [hc] at h; cases h
        | ok qs =>
          rw [hc] at h
          dsimp only at h
          injection h with h2
          subst h2
          exact convertToProducts_json_valid j qs hc p hp
      · rw [hps2] at h
        rw [convertToProducts] at h
        dsimp only at h
        injection h with h2
        subst h2
        exact hval p hp
    · rw [if_neg hsucc] at h; cases h

/-- The promotions API body whose products array holds one record with
neither an identifier nor a display name. -/
def invalidProductBody : Body :=
  { text := ""
    json := some (.obj [("products", Jval.arr [Jval.obj []])])
    initialState := none
    patternBlocks := []
    detailPatterns := ⟨none, none, none⟩ }

/-- A plain-API upstream whose promotions endpoint returns that body. -/
def promoEnv : String → PlainResult := fun u =>
  if u = promotionsAPIURL "descuentos" then .resp 200 invalidProductBody
  else .doErr "unreachable"

/-- C6 counterexample: the promotions orchestrator surfaces the zero-value
record (empty identifier AND empty display name) untouched, because its
first tier (the plain fetchPromotions JSON API) performs no validity
filtering - refuting the claim that every surfaced promotions record is
valid. -/
theorem c6_counterexample :
    fetchPromotionsAdvanced promoEnv env500 "descuentos" =
      AdvFetchResult.ok [Product.zero] ∧
    Product.zero.ID = "" ∧ Product.zero.DisplayName = "" :=
  ⟨rfl, rfl, rfl⟩

/-- The search API body: a bare JSON array with one product object. -/
def searchJsonBody : Body :=
  { text := ""
    json := some (.arr [Jval.obj [("id", Jval.str "a")]])
    initialState := none
    patternBlocks := []
    detailPatterns := ⟨none, none, none⟩ }

/-- An advanced-transport oracle whose search API endpoint answers with
that array on every attempt and anything else with a 500. -/
def searchEnv : String → Nat → DoResult := fun u _ =>
  if u = searchApiURL "leche" then DoResult.resp 200 searchJsonBody
  else DoResult.resp 500 Body.empty

/-- C6 witness: the record surfaced by the advanced search on the concrete
upstream is valid. -/
theorem c6_valid_records_witness :
    (mapInterfaceToProduct [("id", Jval.str "a")]).ID ≠ "" ∨
    (mapInterfaceToProduct [("id", Jval.str "a")]).DisplayName ≠ "" :=
  c6_valid_records.2.2 searchEnv "leche" [mapInterfaceToProduct [("id", Jval.str "a")]]
    rfl (mapInterfaceToProduct [("id", Jval.str "a")]) (List.mem_singleton.mpr rfl)

end Lider
